import Mathlib

/-!
Verification of the toadplatform bundler core: chain-scoped configuration
resolution (`MetadataService.get_chain`, `get_entrypoint_abi`) and the
translation of an internal `UserOperation` record into the entrypoint
contract's ABI parameter record (`get_entry_point_user_operation_payload`).

The embedding follows the Rust sources
`backend/src/services/metada_service.rs`,
`bundler/src/provider/entrypoint_helper.rs` and
`bundler/src/models/admin/add_metadata_request.rs`.  The process-wide
`CONFIG` global is passed explicitly as a `Settings` value.  A Rust panic
(an out-of-bounds map index, or `U256::from` applied to a negative signed
integer) aborts the call without returning a value; such calls are embedded
as `Option`-valued functions where `none` stands for the panic and `some`
for the value a normal return produces.
-/

namespace Toad

/-- The ethers `Address` (`H160`) type, modeled as its 160-bit numeric value. -/
abbrev Address := Nat

/-- The ethers `Bytes` type: an arbitrary byte payload, modeled as a list of
byte values. -/
abbrev Bytes := List Nat

/-! ## Configuration

Modelled from the spec: `backend/src/models/config/settings.rs` is not in the
repository snapshot.  Per the configuration-input interface, the settings hold
a table mapping each chain name to its currency, entrypoint contract address
and RPC endpoint, plus a single active-chain selector (`current_chain`), and
the table is read through Rust's indexing operator, which panics when the key
is absent. -/

/-- Modelled from the spec: the per-chain entry of the configuration table
(currency symbol, entrypoint contract address, RPC endpoint reference). -/
structure ChainSettings where
  currency : String
  entrypoint_address : Address
  rpc_endpoint : String
deriving DecidableEq

/-- Modelled from the spec: the process configuration `CONFIG`, restricted to
the fields the core reads — the active-chain selector and the per-chain
table.  The table is kept as an association list. -/
structure Settings where
  current_chain : String
  chains : List (String × ChainSettings)
deriving DecidableEq

/-- Key lookup in the configuration table, as Rust's `HashMap` lookup:
`none` when the key has no entry (where the indexing operator would panic). -/
def lookupChain : List (String × ChainSettings) → String → Option ChainSettings
  | [], _ => none
  | (k, v) :: rest, key => if k = key then some v else lookupChain rest key

/-! ## Metadata service (`backend/src/services/metada_service.rs`) -/

/-- Modelled from the spec: `backend/src/models/metadata.rs` is not in the
repository snapshot; `Metadata` is the derived value `{chain, currency}`. -/
structure Metadata where
  chain : String
  currency : String
deriving DecidableEq

/-- Modelled from the spec: `backend/src/errors.rs` is not in the repository
snapshot; the spec's error taxonomy names `UnknownChain`, `InvalidFieldValue`
and `DispatchError`. -/
inductive ApiError where
  | unknownChain
  | invalidFieldValue
  | dispatchError
deriving DecidableEq

/-- The field-less `MetadataService` struct. -/
structure MetadataService where
deriving DecidableEq

/-- `MetadataService::get_chain`: builds `Ok(Metadata { chain, currency })`
from `CONFIG.current_chain` and `CONFIG.chains[&CONFIG.current_chain]`.  The
map index panics when the active chain has no entry, hence the `Option`
layer: `none` is the panic, and a normal return is `some` of the `Result`
value the Rust function produces. -/
def MetadataService.get_chain (_self : MetadataService) (cfg : Settings) :
    Option (Except ApiError Metadata) :=
  match lookupChain cfg.chains cfg.current_chain with
  | some entry =>
      some (Except.ok { chain := cfg.current_chain, currency := entry.currency })
  | none => none

/-! ## Entrypoint helper (`bundler/src/provider/entrypoint_helper.rs`) -/

/-- The `Arc<Provider<Http>>` connection handle, kept opaque: the core only
stores it, never inspects it. -/
structure Provider where
  url : String
deriving DecidableEq

/-- The abigen-generated `EntryPoint<Provider<Http>>` contract client: a
contract address paired with the connection handle (`Contract::new`). -/
structure EntryPoint where
  address : Address
  client : Provider
deriving DecidableEq

/-- `EntryPoint::new(address, client)`: pure construction of the bound
client; no I/O happens here. -/
def EntryPoint.new (address : Address) (client : Provider) : EntryPoint :=
  { address := address, client := client }

/-- `get_entrypoint_abi(current_chain, client)`: reads
`CONFIG.chains[current_chain].entrypoint_address` — a map index that panics
(`none`) when the chain has no entry — and otherwise returns the client
bound to that address. -/
def get_entrypoint_abi (cfg : Settings) (current_chain : String)
    (client : Provider) : Option EntryPoint :=
  match lookupChain cfg.chains current_chain with
  | some entry => some (EntryPoint.new entry.entrypoint_address client)
  | none => none

/-! ## Operation translation -/

/-- Modelled from the spec:
`bundler/src/models/contract_interaction/user_operation.rs` is not in the
repository snapshot.  Per the data model and the design note that the source
record types its integer fields as 64-bit signed and converts them to 256-bit
unsigned downstream, the six integer fields are `i64` (embedded as `Int`,
meaningful on the range `-2^63 ≤ x < 2^63`), and the byte payloads and sender
address carry the types the translation passes through unchanged. -/
structure UserOperation where
  sender : Address
  nonce : Int
  init_code : Bytes
  calldata : Bytes
  call_gas_limit : Int
  verification_gas_limit : Int
  pre_verification_gas : Int
  max_fee_per_gas : Int
  max_priority_fee_per_gas : Int
  signature : Bytes
  paymaster_and_data : Bytes
deriving DecidableEq

/-- The abigen-generated `UserOperation` struct local to `EntryPoint` (the
ABI parameter record): integer fields are `U256`, embedded as `Nat` values
(each produced value is below `2^64 ≤ 2^256`, so no modular reduction
arises). -/
structure EntryPointUserOperation where
  sender : Address
  nonce : Nat
  init_code : Bytes
  call_data : Bytes
  call_gas_limit : Nat
  verification_gas_limit : Nat
  pre_verification_gas : Nat
  max_fee_per_gas : Nat
  max_priority_fee_per_gas : Nat
  signature : Bytes
  paymaster_and_data : Bytes
deriving DecidableEq

/-- `U256::from` at type `i64` (ethers re-exports the uint crate
implementation): a non-negative value is widened to its exact numeric value,
and a negative value panics ("Unsigned integer can't be created from negative
value"), embedded as `none`. -/
def U256.from_i64 (x : Int) : Option Nat :=
  if 0 ≤ x then some x.toNat else none

/-- `get_entry_point_user_operation_payload(user_op)`: builds the ABI record
field by field — `sender`, byte payloads and signature moved unchanged, each
integer field passed through `U256::from`.  Any panic of `U256::from`
aborts the construction (`none`). -/
def get_entry_point_user_operation_payload (user_op : UserOperation) :
    Option EntryPointUserOperation := do
  let nonce ← U256.from_i64 user_op.nonce
  let call_gas_limit ← U256.from_i64 user_op.call_gas_limit
  let verification_gas_limit ← U256.from_i64 user_op.verification_gas_limit
  let pre_verification_gas ← U256.from_i64 user_op.pre_verification_gas
  let max_fee_per_gas ← U256.from_i64 user_op.max_fee_per_gas
  let max_priority_fee_per_gas ← U256.from_i64 user_op.max_priority_fee_per_gas
  some
    { sender := user_op.sender
      nonce := nonce
      init_code := user_op.init_code
      call_data := user_op.calldata
      call_gas_limit := call_gas_limit
      verification_gas_limit := verification_gas_limit
      pre_verification_gas := pre_verification_gas
      max_fee_per_gas := max_fee_per_gas
      max_priority_fee_per_gas := max_priority_fee_per_gas
      signature := user_op.signature
      paymaster_and_data := user_op.paymaster_and_data }

/-- Modelled from the spec: the translation contract of `OperationCodec` as
the spec words it — a source field that holds a negative value makes the
translation fail with the typed error `InvalidFieldValue`; otherwise every
integer field is widened exactly and every byte field passes through.  This
definition follows the spec's words, for comparison with
`get_entry_point_user_operation_payload`, which follows the source. -/
inductive TranslationError where
  | invalidFieldValue
deriving DecidableEq

/-- Modelled from the spec: see `TranslationError`. -/
def translate_spec (op : UserOperation) :
    Except TranslationError EntryPointUserOperation :=
  if op.nonce < 0 ∨ op.call_gas_limit < 0 ∨ op.verification_gas_limit < 0 ∨
      op.pre_verification_gas < 0 ∨ op.max_fee_per_gas < 0 ∨
      op.max_priority_fee_per_gas < 0 then
    Except.error TranslationError.invalidFieldValue
  else
    Except.ok
      { sender := op.sender
        nonce := op.nonce.toNat
        init_code := op.init_code
        call_data := op.calldata
        call_gas_limit := op.call_gas_limit.toNat
        verification_gas_limit := op.verification_gas_limit.toNat
        pre_verification_gas := op.pre_verification_gas.toNat
        max_fee_per_gas := op.max_fee_per_gas.toNat
        max_priority_fee_per_gas := op.max_priority_fee_per_gas.toNat
        signature := op.signature
        paymaster_and_data := op.paymaster_and_data }

/-! ## Admin metadata request (`bundler/src/models/admin/add_metadata_request.rs`) -/

/-- A Rust `String` at character granularity: the list of its Unicode code
points. -/
abbrev RStr := List Nat

/-- One character of Rust's `str::to_lowercase`, modeled on code points
below `0x100`: the Unicode lowercase mapping sends each ASCII uppercase
letter (`0x41`–`0x5A`) and each Latin-1 uppercase letter (`0xC0`–`0xDE`,
excluding the multiplication sign `0xD7`) to the code point `0x20` higher
and leaves every other code point of that range unchanged (no one-to-many
expansion occurs below `0x100`). -/
def rust_char_to_lowercase (c : Nat) : Nat :=
  if 0x41 ≤ c ∧ c ≤ 0x5A then c + 0x20
  else if 0xC0 ≤ c ∧ c ≤ 0xDE ∧ c ≠ 0xD7 then c + 0x20
  else c

/-- Rust's `String::to_lowercase`, character by character (no character of
the modeled range expands to more than one). -/
def rust_to_lowercase (s : RStr) : RStr :=
  s.map rust_char_to_lowercase

/-- ASCII lowercasing as the claim words it — only the ASCII uppercase
letters `A`–`Z` change; every other code point stays.  This definition
follows the claim's words, for comparison with `rust_to_lowercase`, which
follows the source's `to_lowercase`. -/
def ascii_to_lowercase (s : RStr) : RStr :=
  s.map fun c => if 0x41 ≤ c ∧ c ≤ 0x5A then c + 0x20 else c

/-- The `AddMetadataRequest` model: five strings and the `i32` exponent. -/
structure AddMetadataRequest where
  chain : RStr
  currency : RStr
  contract_address : RStr
  exponent : Int
  token_type : RStr
  name : RStr
deriving DecidableEq

/-- `AddMetadataRequest::get_chain`: `self.chain.to_lowercase()`. -/
def AddMetadataRequest.get_chain (self : AddMetadataRequest) : RStr :=
  rust_to_lowercase self.chain

/-- `AddMetadataRequest::get_currency`: `self.currency.to_lowercase()`. -/
def AddMetadataRequest.get_currency (self : AddMetadataRequest) : RStr :=
  rust_to_lowercase self.currency

/-- `AddMetadataRequest::get_contract_address`:
`self.contract_address.to_lowercase()`. -/
def AddMetadataRequest.get_contract_address (self : AddMetadataRequest) : RStr :=
  rust_to_lowercase self.contract_address

/-- `AddMetadataRequest::get_exponent`: `self.exponent`, unchanged. -/
def AddMetadataRequest.get_exponent (self : AddMetadataRequest) : Int :=
  self.exponent

/-- `AddMetadataRequest::get_token_type`: `self.token_type.to_lowercase()`. -/
def AddMetadataRequest.get_token_type (self : AddMetadataRequest) : RStr :=
  rust_to_lowercase self.token_type

/-- `AddMetadataRequest::get_name`: `self.name.to_lowercase()`. -/
def AddMetadataRequest.get_name (self : AddMetadataRequest) : RStr :=
  rust_to_lowercase self.name

/-! ## Concrete fixtures -/

/-- A request whose chain string is "ÀB" (code points `0xC0`, `0x42`): a
mixed-case string with one non-ASCII uppercase letter. -/
def mixed_req : AddMetadataRequest :=
  { chain := [0xC0, 0x42]
    currency := [0x45]
    contract_address := [0x30, 0x78, 0x41]
    exponent := 18
    token_type := [0x45, 0x52, 0x43]
    name := [0x54] }

/-- The "ethereum" chain entry of the registry scenarios. -/
def eth_settings : ChainSettings :=
  { currency := "ETH", entrypoint_address := 0xABCD, rpc_endpoint := "http://localhost:8545" }

/-- A configuration whose registry holds "ethereum" only and whose active
chain is "ethereum". -/
def cfg_eth : Settings :=
  { current_chain := "ethereum", chains := [("ethereum", eth_settings)] }

/-- A configuration whose registry holds "ethereum" only while the active
chain selector says "polygon" — the registry has no entry for the active
chain. -/
def cfg_no_polygon : Settings :=
  { current_chain := "polygon", chains := [("ethereum", eth_settings)] }

/-- The metadata service value (the struct has no fields). -/
def svc : MetadataService := {}

/-- A connection handle for the scenarios. -/
def provider_w : Provider := { url := "http://localhost:8545" }

/-- A small everyday operation: nonce 42, call gas limit 100000, empty
initialization code, non-empty call data. -/
def op_w : UserOperation :=
  { sender := 0x1234
    nonce := 42
    init_code := []
    calldata := [1, 2, 3]
    call_gas_limit := 100000
    verification_gas_limit := 20000
    pre_verification_gas := 5000
    max_fee_per_gas := 7
    max_priority_fee_per_gas := 3
    signature := [9, 9]
    paymaster_and_data := [] }

/-- An operation whose nonce sits at the maximum of the 64-bit signed source
width (`2^63 - 1`) with empty `init_code` and `paymaster_and_data`. -/
def boundary_op : UserOperation :=
  { sender := 0x1234
    nonce := 9223372036854775807
    init_code := []
    calldata := [1, 2, 3]
    call_gas_limit := 100000
    verification_gas_limit := 20000
    pre_verification_gas := 5000
    max_fee_per_gas := 7
    max_priority_fee_per_gas := 3
    signature := [9, 9]
    paymaster_and_data := [] }

/-- An operation carrying a negative nonce in its signed source field. -/
def neg_op : UserOperation :=
  { sender := 0x1234
    nonce := -1
    init_code := []
    calldata := [1, 2, 3]
    call_gas_limit := 100000
    verification_gas_limit := 20000
    pre_verification_gas := 5000
    max_fee_per_gas := 7
    max_priority_fee_per_gas := 3
    signature := [9, 9]
    paymaster_and_data := [] }

/-! ## Widening lemmas -/

theorem U256.from_i64_of_nonneg {x : Int} (h : 0 ≤ x) :
    U256.from_i64 x = some x.toNat := by
  simp [U256.from_i64, h]

theorem U256.from_i64_of_neg {x : Int} (h : x < 0) :
    U256.from_i64 x = none := by
  simp [U256.from_i64]
  omega

/-- C1: for every valid `UserOperation` (each signed 64-bit integer field
non-negative and within its width, byte payloads arbitrary),
`get_entry_point_user_operation_payload` returns a record whose every widened
integer field equals the source value exactly (so reducing it back to the
source width loses nothing, each widened value lying below `2^64`), and whose
sender, `init_code`, `call_data`, `signature` and `paymaster_and_data` are
identical to the source fields. -/
theorem get_entry_point_user_operation_payload_roundtrip
    (op : UserOperation)
    (hn0 : 0 ≤ op.nonce) (hn1 : op.nonce < 2 ^ 63)
    (hc0 : 0 ≤ op.call_gas_limit) (hc1 : op.call_gas_limit < 2 ^ 63)
    (hv0 : 0 ≤ op.verification_gas_limit) (hv1 : op.verification_gas_limit < 2 ^ 63)
    (hp0 : 0 ≤ op.pre_verification_gas) (hp1 : op.pre_verification_gas < 2 ^ 63)
    (hf0 : 0 ≤ op.max_fee_per_gas) (hf1 : op.max_fee_per_gas < 2 ^ 63)
    (hm0 : 0 ≤ op.max_priority_fee_per_gas) (hm1 : op.max_priority_fee_per_gas < 2 ^ 63) :
    ∃ p, get_entry_point_user_operation_payload op = some p ∧
      (p.nonce : Int) = op.nonce ∧ p.nonce < 2 ^ 64 ∧
      (p.call_gas_limit : Int) = op.call_gas_limit ∧ p.call_gas_limit < 2 ^ 64 ∧
      (p.verification_gas_limit : Int) = op.verification_gas_limit ∧
        p.verification_gas_limit < 2 ^ 64 ∧
      (p.pre_verification_gas : Int) = op.pre_verification_gas ∧
        p.pre_verification_gas < 2 ^ 64 ∧
      (p.max_fee_per_gas : Int) = op.max_fee_per_gas ∧ p.max_fee_per_gas < 2 ^ 64 ∧
      (p.max_priority_fee_per_gas : Int) = op.max_priority_fee_per_gas ∧
        p.max_priority_fee_per_gas < 2 ^ 64 ∧
      p.sender = op.sender ∧ p.init_code = op.init_code ∧
      p.call_data = op.calldata ∧ p.signature = op.signature ∧
      p.paymaster_and_data = op.paymaster_and_data := by
  have hEq : get_entry_point_user_operation_payload op = some
      { sender := op.sender
        nonce := op.nonce.toNat
        init_code := op.init_code
        call_data := op.calldata
        call_gas_limit := op.call_gas_limit.toNat
        verification_gas_limit := op.verification_gas_limit.toNat
        pre_verification_gas := op.pre_verification_gas.toNat
        max_fee_per_gas := op.max_fee_per_gas.toNat
        max_priority_fee_per_gas := op.max_priority_fee_per_gas.toNat
        signature := op.signature
        paymaster_and_data := op.paymaster_and_data } := by
    simp [get_entry_point_user_operation_payload,
      U256.from_i64_of_nonneg hn0, U256.from_i64_of_nonneg hc0,
      U256.from_i64_of_nonneg hv0, U256.from_i64_of_nonneg hp0,
      U256.from_i64_of_nonneg hf0, U256.from_i64_of_nonneg hm0]
  refine ⟨_, hEq, ?_, ?_, ?_, ?_, ?_, ?_, ?_, ?_, ?_, ?_, ?_, ?_, rfl, rfl, rfl, rfl, rfl⟩
  all_goals dsimp only
  all_goals omega

/-- C1 witness: the round-trip theorem applied to the concrete operation
`op_w` (nonce 42, call gas limit 100000, empty initialization code,
three-byte call data). -/
theorem get_entry_point_user_operation_payload_roundtrip_witness :
    ∃ p, get_entry_point_user_operation_payload op_w = some p ∧
      (p.nonce : Int) = op_w.nonce ∧ p.nonce < 2 ^ 64 ∧
      (p.call_gas_limit : Int) = op_w.call_gas_limit ∧ p.call_gas_limit < 2 ^ 64 ∧
      (p.verification_gas_limit : Int) = op_w.verification_gas_limit ∧
        p.verification_gas_limit < 2 ^ 64 ∧
      (p.pre_verification_gas : Int) = op_w.pre_verification_gas ∧
        p.pre_verification_gas < 2 ^ 64 ∧
      (p.max_fee_per_gas : Int) = op_w.max_fee_per_gas ∧ p.max_fee_per_gas < 2 ^ 64 ∧
      (p.max_priority_fee_per_gas : Int) = op_w.max_priority_fee_per_gas ∧
        p.max_priority_fee_per_gas < 2 ^ 64 ∧
      p.sender = op_w.sender ∧ p.init_code = op_w.init_code ∧
      p.call_data = op_w.calldata ∧ p.signature = op_w.signature ∧
      p.paymaster_and_data = op_w.paymaster_and_data :=
  get_entry_point_user_operation_payload_roundtrip op_w
    (by decide) (by decide) (by decide) (by decide) (by decide) (by decide)
    (by decide) (by decide) (by decide) (by decide) (by decide) (by decide)

/-- C2 counterexample: at the concrete operation `neg_op`, whose nonce field
holds the negative value `-1`, the code panics inside `U256::from` and
returns nothing at all (embedded as `none`) — it does not fail with the
typed error `InvalidFieldValue` the claim names (the function's return type
has no error variant); the spec-worded codec `translate_spec` at the same
input shows what the claimed behaviour would have been. -/
theorem get_entry_point_user_operation_payload_neg_counterexample :
    get_entry_point_user_operation_payload neg_op = none ∧
    translate_spec neg_op = Except.error TranslationError.invalidFieldValue := by
  constructor
  · rfl
  · rfl

/-- C2 amended: if any signed source integer field of the `UserOperation`
holds a negative value, `get_entry_point_user_operation_payload` panics in
`U256::from` (embedded: returns `none`) — so it never wraps or reinterprets
a negative value into a large unsigned widened value, but neither does it
return a typed `InvalidFieldValue` error: its return type has no error
channel at all. -/
theorem get_entry_point_user_operation_payload_neg_panics
    (op : UserOperation)
    (h : op.nonce < 0 ∨ op.call_gas_limit < 0 ∨ op.verification_gas_limit < 0 ∨
      op.pre_verification_gas < 0 ∨ op.max_fee_per_gas < 0 ∨
      op.max_priority_fee_per_gas < 0) :
    get_entry_point_user_operation_payload op = none := by
  rcases lt_or_ge op.nonce 0 with hn | hn
  · simp [get_entry_point_user_operation_payload, U256.from_i64_of_neg hn]
  rcases lt_or_ge op.call_gas_limit 0 with hc | hc
  · simp [get_entry_point_user_operation_payload,
      U256.from_i64_of_nonneg hn, U256.from_i64_of_neg hc]
  rcases lt_or_ge op.verification_gas_limit 0 with hv | hv
  · simp [get_entry_point_user_operation_payload,
      U256.from_i64_of_nonneg hn, U256.from_i64_of_nonneg hc,
      U256.from_i64_of_neg hv]
  rcases lt_or_ge op.pre_verification_gas 0 with hp | hp
  · simp [get_entry_point_user_operation_payload,
      U256.from_i64_of_nonneg hn, U256.from_i64_of_nonneg hc,
      U256.from_i64_of_nonneg hv, U256.from_i64_of_neg hp]
  rcases lt_or_ge op.max_fee_per_gas 0 with hf | hf
  · simp [get_entry_point_user_operation_payload,
      U256.from_i64_of_nonneg hn, U256.from_i64_of_nonneg hc,
      U256.from_i64_of_nonneg hv, U256.from_i64_of_nonneg hp,
      U256.from_i64_of_neg hf]
  rcases lt_or_ge op.max_priority_fee_per_gas 0 with hm | hm
  · simp [get_entry_point_user_operation_payload,
      U256.from_i64_of_nonneg hn, U256.from_i64_of_nonneg hc,
      U256.from_i64_of_nonneg hv, U256.from_i64_of_nonneg hp,
      U256.from_i64_of_nonneg hf, U256.from_i64_of_neg hm]
  rcases h with h | h | h | h | h | h <;> omega

/-- C2 witness: the amended theorem applied to the concrete operation
`neg_op` with its negative nonce. -/
theorem get_entry_point_user_operation_payload_neg_panics_witness :
    get_entry_point_user_operation_payload neg_op = none :=
  get_entry_point_user_operation_payload_neg_panics neg_op (Or.inl (by decide))

/-- C6: boundary behaviour — `boundary_op` carries the maximum value of the
64-bit signed source width (`2^63 - 1`) in its nonce and empty `init_code`
and `paymaster_and_data`; translation widens the nonce to exactly that value
and keeps both empty byte fields empty (no default or sentinel value). -/
theorem get_entry_point_user_operation_payload_boundary :
    boundary_op.nonce = 2 ^ 63 - 1 ∧
    get_entry_point_user_operation_payload boundary_op = some
      { sender := 0x1234
        nonce := 2 ^ 63 - 1
        init_code := []
        call_data := [1, 2, 3]
        call_gas_limit := 100000
        verification_gas_limit := 20000
        pre_verification_gas := 5000
        max_fee_per_gas := 7
        max_priority_fee_per_gas := 3
        signature := [9, 9]
        paymaster_and_data := [] } := by
  constructor
  · decide
  · decide

/-- C7: the translation is deterministic and pure — it is a function of the
operation's fields alone, so two invocations on field-wise equal inputs
return field-wise equal (indeed equal) results; the embedding reads no state
besides the argument and performs no I/O. -/
theorem get_entry_point_user_operation_payload_deterministic
    (a b : UserOperation)
    (h : a.sender = b.sender ∧ a.nonce = b.nonce ∧ a.init_code = b.init_code ∧
      a.calldata = b.calldata ∧ a.call_gas_limit = b.call_gas_limit ∧
      a.verification_gas_limit = b.verification_gas_limit ∧
      a.pre_verification_gas = b.pre_verification_gas ∧
      a.max_fee_per_gas = b.max_fee_per_gas ∧
      a.max_priority_fee_per_gas = b.max_priority_fee_per_gas ∧
      a.signature = b.signature ∧ a.paymaster_and_data = b.paymaster_and_data) :
    get_entry_point_user_operation_payload a =
      get_entry_point_user_operation_payload b := by
  obtain ⟨h1, h2, h3, h4, h5, h6, h7, h8, h9, h10, h11⟩ := h
  have hab : a = b := by
    cases a
    cases b
    simp_all
  rw [hab]

/-- C7 witness: determinism applied to two field-wise equal copies of the
concrete operation `op_w`. -/
theorem get_entry_point_user_operation_payload_deterministic_witness :
    get_entry_point_user_operation_payload op_w =
      get_entry_point_user_operation_payload op_w :=
  get_entry_point_user_operation_payload_deterministic op_w op_w
    ⟨rfl, rfl, rfl, rfl, rfl, rfl, rfl, rfl, rfl, rfl, rfl⟩

/-- C3 counterexample: with the concrete configuration `cfg_no_polygon`
(active chain "polygon", registry holding "ethereum" only),
`MetadataService.get_chain` panics at the map index (embedded as `none`) and
in particular never returns the typed error `UnknownChain` the claim
names. -/
theorem metadata_get_chain_missing_counterexample :
    MetadataService.get_chain svc cfg_no_polygon = none ∧
    MetadataService.get_chain svc cfg_no_polygon ≠
      some (Except.error ApiError.unknownChain) := by
  constructor
  · rfl
  · intro hcontra
    exact Option.noConfusion hcontra

/-- C3 amended: whenever the configured active chain has no entry in the
registry table, `MetadataService.get_chain` panics at the out-of-bounds map
index (embedded: returns `none`) instead of returning any value — in
particular it returns neither a default metadata value nor a typed
`UnknownChain` error. -/
theorem metadata_get_chain_missing_panics (s : MetadataService) (cfg : Settings)
    (h : lookupChain cfg.chains cfg.current_chain = none) :
    MetadataService.get_chain s cfg = none := by
  simp [MetadataService.get_chain, h]

/-- C3 witness: the amended theorem applied to the concrete configuration
`cfg_no_polygon`. -/
theorem metadata_get_chain_missing_panics_witness :
    MetadataService.get_chain svc cfg_no_polygon = none :=
  metadata_get_chain_missing_panics svc cfg_no_polygon rfl

/-- C4 counterexample: with the concrete registry of `cfg_no_polygon` (no
entry for "polygon"), `get_entrypoint_abi` applied to "polygon" panics at
the map index (embedded as `none`): it returns nothing at all — its return
type has no error variant, so no typed `UnknownChain` error is produced.  No
network call is involved: the only construction on the success path,
`EntryPoint.new`, is pure attachment of the address and handle. -/
theorem get_entrypoint_abi_missing_counterexample :
    get_entrypoint_abi cfg_no_polygon "polygon" provider_w = none := by
  rfl

/-- C4 amended: for every chain name without a registry entry,
`get_entrypoint_abi` panics at the out-of-bounds map index (embedded:
returns `none`) before any client is constructed, rather than returning a
typed `UnknownChain` error; no network call is attempted (binding performs
no I/O in any case). -/
theorem get_entrypoint_abi_missing_panics (cfg : Settings) (chain : String)
    (client : Provider) (h : lookupChain cfg.chains chain = none) :
    get_entrypoint_abi cfg chain client = none := by
  simp [get_entrypoint_abi, h]

/-- C4 witness: the amended theorem applied to the concrete registry of
`cfg_no_polygon` and the chain name "polygon". -/
theorem get_entrypoint_abi_missing_panics_witness :
    get_entrypoint_abi cfg_no_polygon "polygon" provider_w = none :=
  get_entrypoint_abi_missing_panics cfg_no_polygon "polygon" provider_w rfl

/-- C5: when the configured active chain has a registry entry,
`MetadataService.get_chain` returns `Ok` of a `Metadata` whose `chain` field
is the configured active chain name and whose `currency` field is that
entry's currency; the embedding is a pure function of the configuration, so
the call has no side effects. -/
theorem metadata_get_chain_found (s : MetadataService) (cfg : Settings)
    (entry : ChainSettings)
    (h : lookupChain cfg.chains cfg.current_chain = some entry) :
    MetadataService.get_chain s cfg =
      some (Except.ok { chain := cfg.current_chain, currency := entry.currency }) := by
  simp [MetadataService.get_chain, h]

/-- C5 witness: the scenario of the spec — registry entry "ethereum" with
currency "ETH" and active chain "ethereum" yields
`Ok {chain := "ethereum", currency := "ETH"}`. -/
theorem metadata_get_chain_found_witness :
    MetadataService.get_chain svc cfg_eth =
      some (Except.ok { chain := "ethereum", currency := "ETH" }) :=
  metadata_get_chain_found svc cfg_eth eth_settings rfl

/-- C8: for every chain name with a registry entry, `get_entrypoint_abi`
returns the `EntryPoint` client whose bound contract address is exactly the
`entrypoint_address` stored in that entry and which holds the connection
handle supplied by the caller. -/
theorem get_entrypoint_abi_found (cfg : Settings) (chain : String)
    (client : Provider) (entry : ChainSettings)
    (h : lookupChain cfg.chains chain = some entry) :
    get_entrypoint_abi cfg chain client =
      some { address := entry.entrypoint_address, client := client } := by
  simp [get_entrypoint_abi, EntryPoint.new, h]

/-- C8 witness: the binding theorem applied to the concrete registry
`cfg_eth`, the chain name "ethereum" and the handle `provider_w`. -/
theorem get_entrypoint_abi_found_witness :
    get_entrypoint_abi cfg_eth "ethereum" provider_w =
      some { address := 0xABCD, client := provider_w } :=
  get_entrypoint_abi_found cfg_eth "ethereum" provider_w eth_settings rfl

/-- C10: `MetadataService.get_chain`, whenever it returns at all (`some`),
returns the `Ok` variant of its `Result`: no execution path constructs or
returns the `Err(ApiError)` variant, so the declared error branch of the
signature is unreachable. -/
theorem metadata_get_chain_never_err (s : MetadataService) (cfg : Settings) :
    MetadataService.get_chain s cfg = none ∨
    ∃ m, MetadataService.get_chain s cfg = some (Except.ok m) := by
  unfold MetadataService.get_chain
  cases lookupChain cfg.chains cfg.current_chain with
  | none => exact Or.inl rfl
  | some entry => exact Or.inr ⟨_, rfl⟩

theorem rust_char_to_lowercase_not_ascii_upper (c : Nat) :
    ¬ (0x41 ≤ rust_char_to_lowercase c ∧ rust_char_to_lowercase c ≤ 0x5A) := by
  unfold rust_char_to_lowercase
  split_ifs <;> omega

/-- C9 counterexample: on the concrete request `mixed_req`, whose chain
string is "ÀB", `get_chain` returns the Unicode-lowercased "àb" — not the
ASCII-lowercased form "Àb" the claim names (ASCII lowercasing leaves the
non-ASCII letter `À` unchanged). -/
theorem add_metadata_request_ascii_counterexample :
    AddMetadataRequest.get_chain mixed_req ≠ ascii_to_lowercase mixed_req.chain ∧
    AddMetadataRequest.get_chain mixed_req = rust_to_lowercase mixed_req.chain := by
  constructor
  · decide
  · rfl

/-- C9 amended: each string accessor of `AddMetadataRequest` returns the
Unicode-lowercased form (Rust's `to_lowercase`) of the corresponding stored
field — which agrees with ASCII lowercasing on ASCII strings but also
lowercases non-ASCII letters — so the returned strings never contain
uppercase ASCII letters and the accessors are not the identity on
mixed-case input, while `get_exponent` returns the stored exponent
unchanged. -/
theorem add_metadata_request_accessors (r : AddMetadataRequest) :
    r.get_chain = rust_to_lowercase r.chain ∧
    r.get_currency = rust_to_lowercase r.currency ∧
    r.get_contract_address = rust_to_lowercase r.contract_address ∧
    r.get_token_type = rust_to_lowercase r.token_type ∧
    r.get_name = rust_to_lowercase r.name ∧
    r.get_exponent = r.exponent ∧
    (∀ c ∈ r.get_chain, ¬ (0x41 ≤ c ∧ c ≤ 0x5A)) ∧
    (∀ c ∈ r.get_currency, ¬ (0x41 ≤ c ∧ c ≤ 0x5A)) ∧
    (∀ c ∈ r.get_contract_address, ¬ (0x41 ≤ c ∧ c ≤ 0x5A)) ∧
    (∀ c ∈ r.get_token_type, ¬ (0x41 ≤ c ∧ c ≤ 0x5A)) ∧
    (∀ c ∈ r.get_name, ¬ (0x41 ≤ c ∧ c ≤ 0x5A)) ∧
    ∃ q : AddMetadataRequest, q.get_chain ≠ q.chain := by
  refine ⟨rfl, rfl, rfl, rfl, rfl, rfl, ?_, ?_, ?_, ?_, ?_, ⟨mixed_req, by decide⟩⟩
  all_goals
    intro c hc
    simp only [AddMetadataRequest.get_chain, AddMetadataRequest.get_currency,
      AddMetadataRequest.get_contract_address, AddMetadataRequest.get_token_type,
      AddMetadataRequest.get_name, rust_to_lowercase, List.mem_map] at hc
    obtain ⟨x, _, rfl⟩ := hc
    exact rust_char_to_lowercase_not_ascii_upper x

end Toad
